import Mathlib

/-!
Verification development for the StoryStatsWatcher discord statistics bot.

The repository's entry point (`src/main.rs`) contains the event handler,
the startup replay (`store_replay`), the background persistence loop
(`dump_state`), the renderer supervisor
(`maybe_start_python_wordcloud_worker` / `wordcloud_worker_chaperone`),
and the live-message hook (`on_regular_message`).  The `state` module
(Store, ChannelTracker) is not included in the sources; those pieces are
modelled from the specification and are marked as such in their doc
comments.  External effects (the chat transport's message fetch, disk
writes, process spawning, stream reads) are modelled as explicit
parameters carrying `Except` results, and the locking discipline of the
two background tasks is modelled as explicit event traces.
-/

namespace StoryStats

/-- A story key is the pair (guild id, channel id); `main.rs` builds it
as `(server_id, message.channel_id)`. Ids are modelled as naturals. -/
abbrev StoryKey := Nat × Nat

/-- A chat message as the core consumes it: its id (message ids are
assigned by the transport in increasing order), its text body, the
optional guild id and the channel id. -/
structure Msg where
  id : Nat
  body : String
  guild_id : Option Nat
  channel_id : Nat
deriving DecidableEq, Repr

/-- Modelled from the spec: per-channel aggregate of the `state` module
(not under `src/`): message count, word frequency (an association list
word to count) and the high-water mark (largest message id applied). -/
structure ChannelTracker where
  message_count : Nat
  word_frequency : List (String × Nat)
  high_water_mark : Nat
deriving DecidableEq, Repr

/-- Increment the count of one word in a word-frequency association
list, inserting it with count 1 when absent. -/
def bumpWord (w : String) : List (String × Nat) → List (String × Nat)
  | [] => [(w, 1)]
  | (w0, c) :: rest =>
    if w = w0 then (w0, c + 1) :: rest else (w0, c) :: bumpWord w rest

/-- Modelled from the spec: `ChannelTracker::update` of the `state`
module (not under `src/`): if the message id is at most the high-water
mark the update is a no-op; otherwise the body is tokenized by the
lexicon collaborator `tok`, the message count rises by one, each token's
frequency rises by one, and the high-water mark becomes the id. -/
def ChannelTracker.update (tok : String → List String) (m : Msg)
    (t : ChannelTracker) : ChannelTracker :=
  if m.id ≤ t.high_water_mark then t
  else
    { message_count := t.message_count + 1
      word_frequency := (tok m.body).foldl (fun wf w => bumpWord w wf) t.word_frequency
      high_water_mark := m.id }

/-- Store lifecycle from the spec: Loading, then Replaying, then Ready. -/
inductive Lifecycle where
  | Loading
  | Replaying
  | Ready
deriving DecidableEq, Repr

/-- Modelled from the spec: the `Store` of the `state` module (not under
`src/`): the mapping of tracked story keys to their trackers, held as an
association list, plus the lifecycle state. -/
structure Store where
  trackers : List (StoryKey × ChannelTracker)
  lifecycle : Lifecycle
deriving DecidableEq, Repr

/-- Apply a tracker transformation at one key of an association list;
a key with no entry leaves the list unchanged. -/
def updateTracker (k : StoryKey) (f : ChannelTracker → ChannelTracker) :
    List (StoryKey × ChannelTracker) → List (StoryKey × ChannelTracker)
  | [] => []
  | (k0, t) :: rest =>
    if k = k0 then (k0, f t) :: rest else (k0, t) :: updateTracker k f rest

/-- Modelled from the spec: `Store::process_message` of the `state`
module (not under `src/`): when the key has a tracker, apply the message
exactly as `ChannelTracker.update` does; when the key is untracked, a
silent no-op. -/
def Store.process_message (tok : String → List String) (k : StoryKey)
    (m : Msg) (s : Store) : Store :=
  { s with trackers := updateTracker k (ChannelTracker.update tok m) s.trackers }

/-- Modelled from the spec: `Store::story_keys_with_last_message` of the
`state` module (not under `src/`): the tracked keys paired with their
high-water marks, a frozen copy taken under a read lock. -/
def Store.story_keys_with_last_message (s : Store) : List (StoryKey × Nat) :=
  s.trackers.map (fun kt => (kt.1, kt.2.high_water_mark))

/-- Modelled from the spec: `Store::finish_replay` of the `state` module
(not under `src/`): the lifecycle transition to Ready. -/
def Store.finish_replay (s : Store) : Store :=
  { s with lifecycle := Lifecycle.Ready }

/-- Error of the transport collaborator when fetching a channel's missed
messages (`channel_id.messages(...)` in `store_replay`). -/
inductive TransportError where
  | fetchFailed
deriving DecidableEq, Repr

/-- First loop of `store_replay` (`main.rs` lines 118-132): for each
tracked key, fetch the channel's messages after its high-water mark with
limit 50; the code unwraps the fetch result, so the first transport error
aborts everything after it (a panic in the Rust code, an `Except.error`
here), and a channel whose fetch returned no messages is skipped. -/
def collect_new_messages
    (fetch : StoryKey → Nat → Nat → Except TransportError (List Msg)) :
    List (StoryKey × Nat) → Except TransportError (List (StoryKey × List Msg))
  | [] => Except.ok []
  | (k, hwm) :: rest =>
    match fetch k hwm 50 with
    | Except.error e => Except.error e
    | Except.ok msgs =>
      match collect_new_messages fetch rest with
      | Except.error e => Except.error e
      | Except.ok others =>
        if msgs.length > 0 then
          Except.ok ((k, msgs) :: others)
        else
          Except.ok others

/-- Second loop of `store_replay` (`main.rs` lines 145-151): under one
write-lock acquisition, for each fetched channel apply every message to
that channel's tracker via `ChannelTracker.update`. -/
def apply_new_messages (tok : String → List String)
    (nm : List (StoryKey × List Msg)) (s : Store) : Store :=
  nm.foldl
    (fun s0 km =>
      { s0 with
        trackers := updateTracker km.1
          (fun t => km.2.foldl (fun t0 m => ChannelTracker.update tok m t0) t)
          s0.trackers })
    s

/-- The `store_replay` startup routine of `main.rs`: read the tracked
keys and watermarks, fetch the backlog per channel (limit 50, after the
channel's high-water mark), apply it, then `finish_replay`.  The fetch
is a parameter standing for the transport collaborator; the code's
`.unwrap()` on a failed fetch is the `Except` short-circuit. -/
def store_replay (tok : String → List String)
    (fetch : StoryKey → Nat → Nat → Except TransportError (List Msg))
    (s : Store) : Except TransportError Store :=
  match collect_new_messages fetch s.story_keys_with_last_message with
  | Except.error e => Except.error e
  | Except.ok nm => Except.ok (Store.finish_replay (apply_new_messages tok nm s))

/-- The backlog requests `store_replay` issues to the transport: for
each tracked key one request (key, after = the channel's high-water
mark, limit = 50), from `get_messages_builder.after(last_message_id).limit(50)`. -/
def replay_requests (s : Store) : List (StoryKey × Nat × Nat) :=
  s.story_keys_with_last_message.map (fun kw => (kw.1, kw.2, 50))

/-- The live-message hook `on_regular_message` of `main.rs`: when the
message carries a guild id, build the story key and route the message to
`Store::process_message` (via `update_stats_if_exist`); a message with
no guild id is not routed to the store at all. -/
def on_regular_message (tok : String → List String) (s : Store)
    (m : Msg) : Store :=
  match m.guild_id with
  | some g => Store.process_message tok (g, m.channel_id) m s
  | none => s

/-- Error of the durable dump (`store.dump()` in the persistence loop). -/
inductive DumpError where
  | diskFull
deriving DecidableEq, Repr

/-- Whether a task's loop survives one iteration or dies to a panic. -/
inductive LoopStatus where
  | continued
  | panicked
deriving DecidableEq, Repr

/-- One iteration of the `dump_state` persistence loop of `main.rs`
(lines 164-178): the store is only read (the loop takes the read lock
and calls `store.dump()`, which takes the store by shared reference), and
the dump result is unwrapped, so a `DumpError` panics the loop while an
`Ok` lets it sleep and continue.  The disk outcome is a parameter. -/
def dump_state_iter (s : Store) (dumpResult : Except DumpError Unit) :
    Store × LoopStatus :=
  (s, match dumpResult with
      | Except.ok _ => LoopStatus.continued
      | Except.error _ => LoopStatus.panicked)

/-- Events a background task emits against the Store's reader/writer
lock and the outside world. -/
inductive Ev where
  | readAcquire
  | readRelease
  | writeAcquire
  | writeRelease
  | diskWrite
  | netFetch
deriving DecidableEq, BEq, Repr

/-- Tail of `lockHeldAcrossIO`: walk the trace keeping the current
nesting depth of held Store locks (read or write), and report true when
a disk write or network fetch happens at positive depth. -/
def lockHeldAcrossIOAux : Nat → List Ev → Bool
  | _, [] => false
  | d, Ev.readAcquire :: rest => lockHeldAcrossIOAux (d + 1) rest
  | d, Ev.readRelease :: rest => lockHeldAcrossIOAux (d - 1) rest
  | d, Ev.writeAcquire :: rest => lockHeldAcrossIOAux (d + 1) rest
  | d, Ev.writeRelease :: rest => lockHeldAcrossIOAux (d - 1) rest
  | d, Ev.diskWrite :: rest => (d != 0) || lockHeldAcrossIOAux d rest
  | d, Ev.netFetch :: rest => (d != 0) || lockHeldAcrossIOAux d rest

/-- True when some disk or network I/O event of the trace happens while
a Store lock (read or write) is held. -/
def lockHeldAcrossIO (events : List Ev) : Bool :=
  lockHeldAcrossIOAux 0 events

/-- Tail of `writeLockHeldAcrossIO`: same walk, counting only the write
lock. -/
def writeLockHeldAcrossIOAux : Nat → List Ev → Bool
  | _, [] => false
  | d, Ev.readAcquire :: rest => writeLockHeldAcrossIOAux d rest
  | d, Ev.readRelease :: rest => writeLockHeldAcrossIOAux d rest
  | d, Ev.writeAcquire :: rest => writeLockHeldAcrossIOAux (d + 1) rest
  | d, Ev.writeRelease :: rest => writeLockHeldAcrossIOAux (d - 1) rest
  | d, Ev.diskWrite :: rest => (d != 0) || writeLockHeldAcrossIOAux d rest
  | d, Ev.netFetch :: rest => (d != 0) || writeLockHeldAcrossIOAux d rest

/-- True when some disk or network I/O event of the trace happens while
the Store's write lock is held. -/
def writeLockHeldAcrossIO (events : List Ev) : Bool :=
  writeLockHeldAcrossIOAux 0 events

/-- Store-lock/I/O trace of one `dump_state` iteration, read off
`main.rs` lines 166-176: the store read lock is acquired, `store.dump()`
performs the durable write while the read guard is still alive, and the
guard drops at the end of the block.  No snapshot is taken before the
write and no write lock is involved. -/
def dump_state_events : List Ev :=
  [Ev.readAcquire, Ev.diskWrite, Ev.readRelease]

/-- Store-lock/I/O trace of `store_replay` for a store with `n` tracked
channels, read off `main.rs` lines 104-154: a short read lock copies the
keys and watermarks, the lock is released, every channel's backlog is
fetched from the transport with no Store lock held, and then a single
write-lock acquisition covers applying all channels and `finish_replay`. -/
def store_replay_events (n : Nat) : List Ev :=
  [Ev.readAcquire, Ev.readRelease] ++ List.replicate n Ev.netFetch
    ++ [Ev.writeAcquire, Ev.writeRelease]

/-- Number of write-lock acquisitions in a trace. -/
def countWriteAcquires : List Ev → Nat
  | [] => 0
  | Ev.writeAcquire :: rest => countWriteAcquires rest + 1
  | _ :: rest => countWriteAcquires rest

/-- Error of loading the durable snapshot at startup. -/
inductive LoadError where
  | Corrupt
deriving DecidableEq, Repr

/-- The empty store a fresh start begins from: no trackers, lifecycle
Loading. -/
def emptyStore : Store :=
  { trackers := [], lifecycle := Lifecycle.Loading }

/-- Modelled from the spec: `Store::load` of the `state` module (not
under `src/`): a missing snapshot file yields the empty store and is not
an error; a present snapshot is decoded, and a snapshot that does not
decode into a structurally valid store fails with `LoadError.Corrupt`.
The on-disk content and the decoder are parameters. -/
def Store.load (disk : Option String) (decode : String → Option Store) :
    Except LoadError Store :=
  match disk with
  | none => Except.ok emptyStore
  | some bytes =>
    match decode bytes with
    | some s => Except.ok s
    | none => Except.error LoadError.Corrupt

/-- Outcome of the process at startup. -/
inductive StartupOutcome where
  | started (s : Store)
  | aborted
deriving DecidableEq, Repr

/-- The `Store::load()` handling in `main` (`main.rs` lines 251-256):
an `Ok` store is inserted into the client data and the process runs; an
`Err` is a `panic!`, aborting startup. -/
def main_startup (loadResult : Except LoadError Store) : StartupOutcome :=
  match loadResult with
  | Except.ok s => StartupOutcome.started s
  | Except.error _ => StartupOutcome.aborted

/-- Error when spawning the external renderer process. -/
inductive SpawnError where
  | notFound
deriving DecidableEq, Repr

/-- Whether the host process survives an operation or crashes. -/
inductive HostOutcome where
  | running
  | crashed
deriving DecidableEq, Repr

/-- The `maybe_start_python_wordcloud_worker` function of `main.rs`
(lines 181-200), called directly from `main` before the client starts:
with no wordcloud configuration it does nothing; with one it spawns the
renderer process and unwraps the result, so a spawn failure is a panic
in `main` and crashes the host, while a successful spawn hands the child
to the chaperone and the host keeps running.  The spawn outcome is a
parameter. -/
def maybe_start_python_wordcloud_worker (wordcloudConfigured : Bool)
    (spawnResult : Except SpawnError Unit) : HostOutcome :=
  if wordcloudConfigured then
    match spawnResult with
    | Except.ok _ => HostOutcome.running
    | Except.error _ => HostOutcome.crashed
  else
    HostOutcome.running

/-- Error while reading a line from the renderer's stdout or stderr. -/
inductive ReadError where
  | broken
deriving DecidableEq, Repr

/-- Outcome of one of the chaperone's spawned drain tasks. -/
inductive TaskOutcome where
  | completed
  | panickedTask
deriving DecidableEq, Repr

/-- One stream-draining task of `wordcloud_worker_chaperone` (`main.rs`
lines 204-217): each `next_line()` result is unwrapped, so the task
forwards lines until the stream closes (`Ok(None)`), and panics at the
first read error.  The sequence of read results is a parameter. -/
def drain_stream : List (Except ReadError (Option String)) → TaskOutcome
  | [] => TaskOutcome.completed
  | Except.ok none :: _ => TaskOutcome.completed
  | Except.ok (some _) :: rest => drain_stream rest
  | Except.error _ :: _ => TaskOutcome.panickedTask

/-- The drain tasks run under `tokio::spawn`, whose panics are confined
to the spawned task: whatever a drain task's outcome, the host process
keeps running. -/
def host_after_drain (_ : TaskOutcome) : HostOutcome :=
  HostOutcome.running

/-- State of the `cache_ready` handler and the work it has started:
the `tasks_running` flag of the `Handler` struct, and how many times the
replay, the dictionary worker and the dump worker have been started. -/
structure HandlerState where
  tasks_running : Bool
  replay_runs : Nat
  dict_workers : Nat
  dump_workers : Nat
deriving DecidableEq, Repr

/-- Handler state at client construction: `AtomicBool::new(false)` and
nothing started yet. -/
def initHandlerState : HandlerState :=
  { tasks_running := false, replay_runs := 0, dict_workers := 0, dump_workers := 0 }

/-- One non-interleaved invocation of `Handler::cache_ready` (`main.rs`
lines 66-82): when `tasks_running` is false, run the replay, spawn the
dictionary and dump workers, and set the flag; otherwise do nothing. -/
def cache_ready (s : HandlerState) : HandlerState :=
  if s.tasks_running then s
  else
    { tasks_running := true
      replay_runs := s.replay_runs + 1
      dict_workers := s.dict_workers + 1
      dump_workers := s.dump_workers + 1 }

/-! Concrete fixtures used to instantiate the theorems below. -/

/-- A concrete tokenizer: the whole body as a single word. -/
def tok0 : String → List String := fun b => [b]

/-- A concrete tracker: 3 messages seen, one word counted, high-water
mark 100. -/
def t0 : ChannelTracker :=
  { message_count := 3, word_frequency := [("cat", 2)], high_water_mark := 100 }

/-- A concrete message with id 90, below the high-water mark of `t0`. -/
def m0 : Msg := { id := 90, body := "dog", guild_id := some 1, channel_id := 7 }

/-- A concrete store tracking one channel. -/
def store0 : Store := { trackers := [((1, 7), t0)], lifecycle := Lifecycle.Ready }

/-- A concrete store tracking two channels, used to exercise replay. -/
def store2 : Store :=
  { trackers :=
      [((1, 7), { message_count := 0, word_frequency := [], high_water_mark := 100 })
       , ((1, 8), { message_count := 0, word_frequency := [], high_water_mark := 200 })]
    lifecycle := Lifecycle.Loading }

/-- A transport that fails for channel (1, 7) and has one pending
message for every other channel. -/
def fetchBad : StoryKey → Nat → Nat → Except TransportError (List Msg) :=
  fun k _ _ =>
    if k = ((1, 7) : StoryKey) then Except.error TransportError.fetchFailed
    else Except.ok [{ id := 201, body := "dog", guild_id := some 1, channel_id := 8 }]

/-- A transport with no pending messages anywhere. -/
def fetchEmpty : StoryKey → Nat → Nat → Except TransportError (List Msg) :=
  fun _ _ _ => Except.ok []

/-! Helper lemmas. -/

/-- Every channel entry of a successful `collect_new_messages` result
comes from a fetch at that channel's listed watermark with limit 50. -/
lemma collect_new_messages_mem
    (fetch : StoryKey → Nat → Nat → Except TransportError (List Msg))
    (keys : List (StoryKey × Nat)) :
    ∀ nm, collect_new_messages fetch keys = Except.ok nm →
      ∀ p ∈ nm, ∃ w, (p.1, w) ∈ keys ∧ fetch p.1 w 50 = Except.ok p.2 := by
  induction keys with
  | nil =>
    intro nm h p hp
    simp only [collect_new_messages, Except.ok.injEq] at h
    subst h
    simp at hp
  | cons kw rest ih =>
    intro nm h p hp
    obtain ⟨k, hwm⟩ := kw
    simp only [collect_new_messages] at h
    cases hf : fetch k hwm 50 with
    | error e => rw [hf] at h; exact absurd h (by simp)
    | ok msgs =>
      rw [hf] at h
      dsimp only at h
      cases hc : collect_new_messages fetch rest with
      | error e => rw [hc] at h; exact absurd h (by simp)
      | ok others =>
        rw [hc] at h
        dsimp only at h
        by_cases hlen : msgs.length > 0
        · rw [if_pos hlen, Except.ok.injEq] at h
          subst h
          rcases List.mem_cons.mp hp with hp1 | hp2
          · subst hp1
            exact ⟨hwm, List.mem_cons_self _ _, hf⟩
          · obtain ⟨w, hwmem, hfw⟩ := ih others hc p hp2
            exact ⟨w, List.mem_cons_of_mem _ hwmem, hfw⟩
        · rw [if_neg hlen, Except.ok.injEq] at h
          subst h
          obtain ⟨w, hwmem, hfw⟩ := ih others hc p hp
          exact ⟨w, List.mem_cons_of_mem _ hwmem, hfw⟩

/-- When some listed key's fetch fails, `collect_new_messages` fails. -/
lemma collect_new_messages_error
    (fetch : StoryKey → Nat → Nat → Except TransportError (List Msg))
    (keys : List (StoryKey × Nat))
    (h : ∃ kw ∈ keys, ∃ e, fetch kw.1 kw.2 50 = Except.error e) :
    ∃ e, collect_new_messages fetch keys = Except.error e := by
  induction keys with
  | nil => simp at h
  | cons kw rest ih =>
    obtain ⟨kw0, hmem, e, he⟩ := h
    obtain ⟨k, hwm⟩ := kw
    rcases List.mem_cons.mp hmem with h1 | h2
    · subst h1
      exact ⟨e, by simp only [collect_new_messages]; rw [he]⟩
    · cases hf : fetch k hwm 50 with
      | error e1 => exact ⟨e1, by simp only [collect_new_messages]; rw [hf]⟩
      | ok msgs =>
        obtain ⟨e2, he2⟩ := ih ⟨kw0, h2, e, he⟩
        exact ⟨e2, by simp only [collect_new_messages]; rw [hf, he2]⟩

/-- A leading block of transport fetches at depth zero does not affect
whether the write lock is held across later I/O. -/
lemma writeLockAux_replicate_netFetch (n : Nat) (rest : List Ev) :
    writeLockHeldAcrossIOAux 0 (List.replicate n Ev.netFetch ++ rest) =
      writeLockHeldAcrossIOAux 0 rest := by
  induction n with
  | zero => rfl
  | succ k ih => simpa [List.replicate_succ, writeLockHeldAcrossIOAux] using ih

/-- Transport fetches contribute no write-lock acquisitions. -/
lemma countWriteAcquires_replicate_netFetch (n : Nat) (rest : List Ev) :
    countWriteAcquires (List.replicate n Ev.netFetch ++ rest) =
      countWriteAcquires rest := by
  induction n with
  | zero => rfl
  | succ k ih => simpa [List.replicate_succ, countWriteAcquires] using ih

/-- A decoder that rejects everything, and a snapshot body, for the
startup witnesses. -/
def decodeNone : String → Option Store := fun _ => none

/-- A concrete undecodable snapshot body. -/
def bytes0 : String := "not a store"

/-! Claim theorems. -/

/-- C1: applying `ChannelTracker.update` a second time with the same
message is a no-op (so message_count and word_frequency are unchanged
after the second application), and in general a message whose id is at
most the tracker's high-water mark leaves the whole tracker — its
message_count, word_frequency and high_water_mark — unchanged. -/
theorem update_dedupes_by_id (tok : String → List String)
    (t : ChannelTracker) (m : Msg) :
    ChannelTracker.update tok m (ChannelTracker.update tok m t) =
      ChannelTracker.update tok m t ∧
    (m.id ≤ t.high_water_mark → ChannelTracker.update tok m t = t) := by
  constructor
  · by_cases h : m.id ≤ t.high_water_mark
    · simp [ChannelTracker.update, h]
    · simp [ChannelTracker.update, h]
  · intro h
    simp [ChannelTracker.update, h]

/-- Witness for C1 at the fixtures: `m0` has id 90 against high-water
mark 100 of `t0`. -/
theorem update_dedupes_by_id_witness :
    ChannelTracker.update tok0 m0 (ChannelTracker.update tok0 m0 t0) =
      ChannelTracker.update tok0 m0 t0 ∧
    (m0.id ≤ t0.high_water_mark → ChannelTracker.update tok0 m0 t0 = t0) :=
  update_dedupes_by_id tok0 t0 m0

/-- C9: within one run, for any number of non-interleaved `cache_ready`
deliveries, the replay and the two perpetual background workers are
started at most once: the `tasks_running` flag guards the spawns. -/
theorem cache_ready_starts_tasks_at_most_once (n : Nat) :
    (cache_ready^[n] initHandlerState).replay_runs ≤ 1 ∧
    (cache_ready^[n] initHandlerState).dict_workers ≤ 1 ∧
    (cache_ready^[n] initHandlerState).dump_workers ≤ 1 := by
  cases n with
  | zero => simp [initHandlerState]
  | succ k =>
    rw [Function.iterate_succ_apply]
    have h1 : cache_ready initHandlerState =
        { tasks_running := true, replay_runs := 1, dict_workers := 1, dump_workers := 1 } := by
      simp [cache_ready, initHandlerState]
    rw [h1, Function.iterate_fixed (by simp [cache_ready])]
    simp

/-- Witness for C9 at three deliveries of cache_ready. -/
theorem cache_ready_starts_tasks_at_most_once_witness :
    (cache_ready^[3] initHandlerState).replay_runs ≤ 1 ∧
    (cache_ready^[3] initHandlerState).dict_workers ≤ 1 ∧
    (cache_ready^[3] initHandlerState).dump_workers ≤ 1 :=
  cache_ready_starts_tasks_at_most_once 3

/-- C10: a live message with no guild id leaves the store completely
unchanged: `on_regular_message` only routes a message to the store when
its guild id is present, so no tracker's message_count, word_frequency
or high_water_mark moves. -/
theorem on_regular_message_guildless_frame (tok : String → List String)
    (s : Store) (m : Msg) (h : m.guild_id = none) :
    on_regular_message tok s m = s := by
  simp [on_regular_message, h]

/-- Witness for C10: a guild-less message against `store0`. -/
theorem on_regular_message_guildless_frame_witness :
    ({ id := 500, body := "hi", guild_id := none, channel_id := 7 } : Msg).guild_id
        = none ∧
    on_regular_message tok0 store0
        { id := 500, body := "hi", guild_id := none, channel_id := 7 } = store0 :=
  ⟨rfl, on_regular_message_guildless_frame tok0 store0 _ rfl⟩

/-- C2: startup replay issues, per tracked channel, exactly one request
with limit 50 and after-id equal to that channel's recorded high-water
mark; assuming the transport honours its contract (at most `limit`
messages, all ids strictly above `after`, ascending by id), every
channel's fetched-and-applied backlog has at most 50 messages, all with
ids above that channel's watermark, ordered oldest-to-newest, and the
store replay applies exactly those per-channel lists. -/
theorem store_replay_backlog_cap (tok : String → List String)
    (fetch : StoryKey → Nat → Nat → Except TransportError (List Msg))
    (s : Store) (nm : List (StoryKey × List Msg))
    (hfetch : ∀ k a l ms, fetch k a l = Except.ok ms →
      ms.length ≤ l ∧ (∀ m ∈ ms, a < m.id) ∧
        List.Chain' (fun m1 m2 => m1.id < m2.id) ms)
    (hc : collect_new_messages fetch s.story_keys_with_last_message = Except.ok nm) :
    (∀ r ∈ replay_requests s,
      r.2.2 = 50 ∧ (r.1, r.2.1) ∈ s.story_keys_with_last_message) ∧
    (∀ p ∈ nm, p.2.length ≤ 50 ∧
      ∃ w, (p.1, w) ∈ s.story_keys_with_last_message ∧
        (∀ m ∈ p.2, w < m.id) ∧
        List.Chain' (fun m1 m2 => m1.id < m2.id) p.2) ∧
    store_replay tok fetch s =
      Except.ok (Store.finish_replay (apply_new_messages tok nm s)) := by
  refine ⟨?_, ?_, ?_⟩
  · intro r hr
    obtain ⟨kw, hkw, hmap⟩ := List.mem_map.mp hr
    subst hmap
    exact ⟨rfl, hkw⟩
  · intro p hp
    obtain ⟨w, hwmem, hfw⟩ :=
      collect_new_messages_mem fetch s.story_keys_with_last_message nm hc p hp
    obtain ⟨hlen, hgt, hchain⟩ := hfetch p.1 w 50 p.2 hfw
    exact ⟨hlen, w, hwmem, hgt, hchain⟩
  · simp only [store_replay]
    rw [hc]

/-- Witness for C2: the empty-backlog transport against `store0`. -/
theorem store_replay_backlog_cap_witness :
    (∀ r ∈ replay_requests store0,
      r.2.2 = 50 ∧ (r.1, r.2.1) ∈ store0.story_keys_with_last_message) ∧
    (∀ p ∈ ([] : List (StoryKey × List Msg)), p.2.length ≤ 50 ∧
      ∃ w, (p.1, w) ∈ store0.story_keys_with_last_message ∧
        (∀ m ∈ p.2, w < m.id) ∧
        List.Chain' (fun m1 m2 => m1.id < m2.id) p.2) ∧
    store_replay tok0 fetchEmpty store0 =
      Except.ok (Store.finish_replay (apply_new_messages tok0 [] store0)) :=
  store_replay_backlog_cap tok0 fetchEmpty store0 []
    (by
      intro k a l ms h
      have hms : ms = [] := by
        simpa [fetchEmpty] using h.symm
      subst hms
      simp)
    (by rfl)

/-- C3 counterexample: with `store2` tracking channels (1,7) and (1,8)
and a transport whose fetch fails for (1,7) while (1,8) has a pending
message, `store_replay` returns the transport error — the failure is
not isolated to (1,7); no store is produced, so replay does not
continue with, nor complete for, channel (1,8). -/
theorem store_replay_fetch_failure_not_isolated_cex :
    store_replay tok0 fetchBad store2 = Except.error TransportError.fetchFailed ∧
    ¬ ∃ s2, store_replay tok0 fetchBad store2 = Except.ok s2 := by
  have h : store_replay tok0 fetchBad store2 =
      Except.error TransportError.fetchFailed := by rfl
  refine ⟨h, ?_⟩
  rintro ⟨s2, hs⟩
  rw [h] at hs
  exact Except.noConfusion hs

/-- C3 amended: a transport fetch failure for any tracked channel aborts
the whole replay (the code unwraps every fetch result, so the first
failure panics the replay task): no store results and no channel's
backlog is applied. -/
theorem store_replay_fetch_failure_aborts (tok : String → List String)
    (fetch : StoryKey → Nat → Nat → Except TransportError (List Msg))
    (s : Store)
    (h : ∃ kw ∈ s.story_keys_with_last_message,
      ∃ e, fetch kw.1 kw.2 50 = Except.error e) :
    ∃ e, store_replay tok fetch s = Except.error e := by
  obtain ⟨e, he⟩ :=
    collect_new_messages_error fetch s.story_keys_with_last_message h
  exact ⟨e, by simp only [store_replay]; rw [he]⟩

/-- Witness for the amended C3 at the two-channel fixture. -/
theorem store_replay_fetch_failure_aborts_witness :
    ∃ e, store_replay tok0 fetchBad store2 = Except.error e :=
  store_replay_fetch_failure_aborts tok0 fetchBad store2
    ⟨((1, 7), 100), by simp [store2, Store.story_keys_with_last_message],
      TransportError.fetchFailed, by rfl⟩

/-- C4 counterexample: when the disk write of an iteration fails, the
`dump_state` loop does not keep running and retry — the unwrap panics
the loop task. -/
theorem dump_state_error_kills_loop_cex :
    dump_state_iter store0 (Except.error DumpError.diskFull) ≠
      (store0, LoopStatus.continued) ∧
    dump_state_iter store0 (Except.error DumpError.diskFull) =
      (store0, LoopStatus.panicked) := by decide

/-- C4 amended: a disk write failure during the periodic dump panics the
dump loop, which therefore terminates instead of retrying on the next
interval; the in-memory store is unchanged by every iteration, whatever
the disk outcome, and the panic is confined to the spawned loop task. -/
theorem dump_state_error_panics_loop (s : Store) (e : DumpError) :
    dump_state_iter s (Except.error e) = (s, LoopStatus.panicked) ∧
    (∀ r, (dump_state_iter s r).1 = s) :=
  ⟨rfl, fun _ => rfl⟩

/-- Witness for the amended C4 at the fixtures. -/
theorem dump_state_error_panics_loop_witness :
    dump_state_iter store0 (Except.error DumpError.diskFull) =
      (store0, LoopStatus.panicked) ∧
    (∀ r, (dump_state_iter store0 r).1 = store0) :=
  dump_state_error_panics_loop store0 DumpError.diskFull

/-- C5 counterexample: in the `dump_state` iteration trace the durable
write does happen while a Store lock is held — `store.dump()` is called
under the read guard, with no detached snapshot and no release before
the disk I/O. -/
theorem dump_state_lock_across_io_cex :
    lockHeldAcrossIO dump_state_events ≠ false ∧
    lockHeldAcrossIO dump_state_events = true := by decide

/-- C5 amended: each `dump_state` iteration performs its disk write
while holding the Store's read lock (acquired before the write and
released only after it); the write lock, however, is never held across
the durable write. -/
theorem dump_state_io_under_read_lock :
    lockHeldAcrossIO dump_state_events = true ∧
    writeLockHeldAcrossIO dump_state_events = false := by decide

/-- C6 counterexample: replaying a store with two tracked channels
acquires the Store write lock once, not once per channel — the backlog
of both channels is applied under a single acquisition. -/
theorem store_replay_per_channel_lock_cex :
    countWriteAcquires (store_replay_events 2) ≠ 2 ∧
    countWriteAcquires (store_replay_events 2) = 1 := by decide

/-- C6 amended: startup replay applies the fetched backlog for all
channels under one single acquisition of the Store's write lock, held
from the first channel to `finish_replay`; all transport fetches happen
before that acquisition, so the write lock is never held across
network I/O. -/
theorem store_replay_single_write_acquisition (n : Nat) :
    countWriteAcquires (store_replay_events n) = 1 ∧
    writeLockHeldAcrossIO (store_replay_events n) = false := by
  constructor
  · have h1 : countWriteAcquires (store_replay_events n) =
        countWriteAcquires
          (List.replicate n Ev.netFetch ++ [Ev.writeAcquire, Ev.writeRelease]) := rfl
    rw [h1, countWriteAcquires_replicate_netFetch]
    rfl
  · have h2 : writeLockHeldAcrossIO (store_replay_events n) =
        writeLockHeldAcrossIOAux 0
          (List.replicate n Ev.netFetch ++ [Ev.writeAcquire, Ev.writeRelease]) := rfl
    rw [h2, writeLockAux_replicate_netFetch]
    rfl

/-- Witness for the amended C6 at three tracked channels. -/
theorem store_replay_single_write_acquisition_witness :
    countWriteAcquires (store_replay_events 3) = 1 ∧
    writeLockHeldAcrossIO (store_replay_events 3) = false :=
  store_replay_single_write_acquisition 3

/-- C7: a missing snapshot loads as the empty store and startup runs,
while a present but undecodable snapshot fails with `LoadError.Corrupt`
and `main` aborts startup (the `panic!` branch) rather than continuing
with a partial or empty store. -/
theorem load_missing_empty_corrupt_aborts (decode : String → Option Store)
    (bytes : String) (hb : decode bytes = none) :
    Store.load none decode = Except.ok emptyStore ∧
    main_startup (Store.load none decode) = StartupOutcome.started emptyStore ∧
    Store.load (some bytes) decode = Except.error LoadError.Corrupt ∧
    main_startup (Store.load (some bytes) decode) = StartupOutcome.aborted := by
  refine ⟨rfl, rfl, ?_, ?_⟩
  · simp [Store.load, hb]
  · simp [Store.load, main_startup, hb]

/-- Witness for C7 with the all-rejecting decoder and a concrete body. -/
theorem load_missing_empty_corrupt_aborts_witness :
    decodeNone bytes0 = none ∧
    (Store.load none decodeNone = Except.ok emptyStore ∧
      main_startup (Store.load none decodeNone) = StartupOutcome.started emptyStore ∧
      Store.load (some bytes0) decodeNone = Except.error LoadError.Corrupt ∧
      main_startup (Store.load (some bytes0) decodeNone) = StartupOutcome.aborted) :=
  ⟨rfl, load_missing_empty_corrupt_aborts decodeNone bytes0 rfl⟩

/-- C8 counterexample: with rendering configured, a renderer spawn
failure crashes the host process — `spawn().unwrap()` panics inside
`main`, so the rest of the system never starts. -/
theorem wordcloud_spawn_failure_crashes_cex :
    maybe_start_python_wordcloud_worker true (Except.error SpawnError.notFound) =
      HostOutcome.crashed ∧
    maybe_start_python_wordcloud_worker true (Except.error SpawnError.notFound) ≠
      HostOutcome.running := by decide

/-- C8 amended: a renderer spawn failure panics `main` and crashes the
host at startup; a failure while reading the renderer's stdout or
stderr panics only the spawned draining task, and the host process
keeps running (the panic is confined by the task spawn). -/
theorem wordcloud_failure_outcomes (e : SpawnError) (r : ReadError)
    (rest : List (Except ReadError (Option String))) :
    maybe_start_python_wordcloud_worker true (Except.error e) =
      HostOutcome.crashed ∧
    drain_stream (Except.error r :: rest) = TaskOutcome.panickedTask ∧
    host_after_drain (drain_stream (Except.error r :: rest)) =
      HostOutcome.running :=
  ⟨rfl, rfl, rfl⟩

/-- Witness for the amended C8 at concrete failures. -/
theorem wordcloud_failure_outcomes_witness :
    maybe_start_python_wordcloud_worker true (Except.error SpawnError.notFound) =
      HostOutcome.crashed ∧
    drain_stream (Except.error ReadError.broken :: []) = TaskOutcome.panickedTask ∧
    host_after_drain (drain_stream (Except.error ReadError.broken :: [])) =
      HostOutcome.running :=
  wordcloud_failure_outcomes SpawnError.notFound ReadError.broken []

end StoryStats
